import Mathlib

/-!
Verification of the document-generation pipeline: a shallow embedding of the
request router (api/handlers.rs), the worker pool (worker.rs) and the
template cache (templates/cache.rs, templates/manager.rs), together with
theorems settling the specification claims about them.

Conventions of the embedding:
* machine integers (i64) are `Int`, sizes (usize) are `Nat`;
* a UUID is its string rendering; wall-clock instants are `Int` seconds;
* the serialized JSON payload of a request is kept as the byte string it
  serializes to, so `serde_json::to_vec(..).len()` is `String.length`;
* calls into external collaborators (PDF/Excel generators, S3, Kafka
  delivery) are resolved by an explicit environment, and every externally
  visible action is recorded in an effect trace;
* database statements are effects appended to the trace; the store itself
  is the collaborator, so its writes are modelled as succeeding.
-/

namespace DocGen

/-- DocumentType from models/document.rs. -/
inductive DocumentType where
  | Invoice
  | Report
  | Certificate
  | Statement
  | Receipt
  | Custom (name : String)
deriving DecidableEq, Repr

/-- Priority from models/common.rs. -/
inductive Priority where
  | High
  | Normal
  | Low
deriving DecidableEq, Repr

/-- OutputFormat from models/common.rs. -/
inductive OutputFormat where
  | Pdf
  | Excel
  | Csv
deriving DecidableEq, Repr

/-- DocumentStatus from models/document.rs. -/
inductive DocumentStatus where
  | Queued
  | Processing
  | Completed
  | Failed
  | Cancelled
deriving DecidableEq, Repr

/-- DocumentMetadata from models/document.rs (the tags map is an
association list; request_time is an instant in seconds). -/
structure DocumentMetadata where
  tenant_id : Int
  user_id : Int
  organization_id : Option String
  request_time : Int
  ttl_seconds : Option Int
  tags : Option (List (String × String))
deriving DecidableEq, Repr

/-- DocumentRequest from models/document.rs; `data` is the serialized JSON
value of the request payload (the handlers only ever use its byte length
and pass it through opaque collaborators). -/
structure DocumentRequest where
  id : String
  template_id : String
  document_type : DocumentType
  data : String
  priority : Priority
  format : OutputFormat
  callback_url : Option String
  metadata : DocumentMetadata
deriving DecidableEq, Repr

/-- DocumentResponse from models/document.rs. -/
structure DocumentResponse where
  id : String
  status : DocumentStatus
  url : Option String
  error : Option String
  processing_time_ms : Nat
  created_at : Int
  expires_at : Option Int
deriving DecidableEq, Repr

/-! ## Worker pool (worker.rs) -/

/-- One externally visible action of `WorkerPool::process_single_message`
and the helpers it calls. `setStatus` is the UPDATE of update_status,
`saveCompleted`/`saveFailed` are the terminal UPDATEs of
save_completed_document / save_failed_document, `statsUpdate` is the
usage_statistics upsert, `commit` is `consumer.commit_message`, and
`callbackPost` is the webhook POST of send_callback. `render` records the
dispatch into the type-specific generation routine. -/
inductive WorkerEffect where
  | setStatus (id : String) (status : DocumentStatus)
  | saveCompleted (id : String) (url : String) (processing_time_ms : Nat)
  | saveFailed (id : String) (error : String)
  | statsUpdate (success : Bool)
  | commit
  | callbackPost (url : String) (id : String)
  | render (document_type : DocumentType) (id : String)
deriving DecidableEq, Repr

/-- Outcomes of the collaborators the worker renders with: the invoice and
report generation routines (each covering markup generation, compilation
and the S3 upload, returning the artifact URL or an error), and the
measured processing time. -/
structure RenderEnv where
  invoice : DocumentRequest → Except String String
  report : DocumentRequest → Except String String
  processing_time_ms : Nat

/-- Dispatch of worker.rs lines 207..217: Invoice and Report go to their
generation routines, every other type goes to generate_custom, which
always fails with this message. -/
def dispatch_generate (env : RenderEnv) (request : DocumentRequest) :
    Except String String :=
  match request.document_type with
  | DocumentType.Invoice => env.invoice request
  | DocumentType.Report => env.report request
  | _ => Except.error "Custom document type not implemented"

/-- WorkerPool::update_status — one UPDATE of the documents row. -/
def update_status (request : DocumentRequest) (status : DocumentStatus) :
    List WorkerEffect :=
  [WorkerEffect.setStatus request.id status]

/-- WorkerPool::save_completed_document — terminal UPDATE with the
artifact URL, then the usage-statistics upsert. -/
def save_completed_document (request : DocumentRequest) (url : String)
    (processing_time_ms : Nat) : List WorkerEffect :=
  [WorkerEffect.saveCompleted request.id url processing_time_ms,
   WorkerEffect.statsUpdate true]

/-- WorkerPool::save_failed_document — terminal UPDATE with the error
text, then the usage-statistics upsert. -/
def save_failed_document (request : DocumentRequest) (error : String) :
    List WorkerEffect :=
  [WorkerEffect.saveFailed request.id error,
   WorkerEffect.statsUpdate false]

/-- WorkerPool::process_single_message. The argument `deser` is the
combined outcome of `msg.payload()` (None becomes the "Empty payload"
error) and `serde_json::from_slice`: an error at either step is returned
with `?` before anything else happens. On a deserialized request the
worker writes Processing, dispatches the render, then on success persists
Completed, commits and fires the optional callback, and on failure
persists Failed and still commits, returning the error. The result is the
effect trace together with the function value. -/
def process_single_message (deser : Except String DocumentRequest)
    (env : RenderEnv) : List WorkerEffect × Except String Unit :=
  match deser with
  | Except.error e => ([], Except.error e)
  | Except.ok request =>
    let pre := update_status request DocumentStatus.Processing
      ++ [WorkerEffect.render request.document_type request.id]
    match dispatch_generate env request with
    | Except.ok document_url =>
      (pre ++ save_completed_document request document_url env.processing_time_ms
          ++ [WorkerEffect.commit]
          ++ (match request.callback_url with
              | some callback_url => [WorkerEffect.callbackPost callback_url request.id]
              | none => []),
       Except.ok ())
    | Except.error e =>
      (pre ++ save_failed_document request e ++ [WorkerEffect.commit],
       Except.error e)

/-- Number of offset commits in a worker trace. -/
def commit_count : List WorkerEffect → Nat
  | [] => 0
  | WorkerEffect.commit :: rest => commit_count rest + 1
  | _ :: rest => commit_count rest

/-- Number of render dispatches in a worker trace. -/
def render_count : List WorkerEffect → Nat
  | [] => 0
  | WorkerEffect.render _ _ :: rest => render_count rest + 1
  | _ :: rest => render_count rest

/-- Whether an effect persists a terminal status (Completed or Failed). -/
def is_terminal_write : WorkerEffect → Bool
  | WorkerEffect.saveCompleted _ _ _ => true
  | WorkerEffect.saveFailed _ _ => true
  | _ => false

/-- Every commit in the trace is preceded by a terminal status write; the
accumulator records whether a terminal write has been seen. -/
def commits_after_terminal_aux : Bool → List WorkerEffect → Bool
  | _, [] => true
  | seen, WorkerEffect.commit :: rest => seen && commits_after_terminal_aux seen rest
  | seen, e :: rest => commits_after_terminal_aux (seen || is_terminal_write e) rest

/-- Every commit in the trace happens only after some terminal status
write has been persisted. -/
def commits_after_terminal (tr : List WorkerEffect) : Bool :=
  commits_after_terminal_aux false tr

/-! ## Request router (api/handlers.rs, api/state.rs, api/middleware/auth.rs) -/

/-- AppConfig from api/state.rs. -/
structure AppConfig where
  max_sync_size_bytes : Nat
  max_upload_size_bytes : Nat
  rate_limit_per_minute : Nat
  rate_limit_burst : Nat
  sync_timeout_ms : Nat
  kafka_topic_priority : String
  kafka_topic_bulk : String
  s3_bucket_documents : String
  s3_bucket_temp : String
  enable_compression : Bool
deriving DecidableEq, Repr

/-- AppConfig::default from api/state.rs. -/
def AppConfig.default : AppConfig :=
  { max_sync_size_bytes := 1048576
    max_upload_size_bytes := 104857600
    rate_limit_per_minute := 100
    rate_limit_burst := 20
    sync_timeout_ms := 5000
    kafka_topic_priority := "doc.requests.priority"
    kafka_topic_bulk := "doc.requests.bulk"
    s3_bucket_documents := "documents"
    s3_bucket_temp := "temp-uploads"
    enable_compression := true }

/-- Count of quota units consumed for a key in the current window. -/
def getCount : List (String × Nat) → String → Nat
  | [], _ => 0
  | (k0, v0) :: rest, k => if k0 = k then v0 else getCount rest k

/-- Set the consumed count for a key. -/
def setCount : List (String × Nat) → String → Nat → List (String × Nat)
  | [], k, v => [(k, v)]
  | (k0, v0) :: rest, k, v =>
    if k0 = k then (k, v) :: rest else (k0, v0) :: setCount rest k v

/-- Modelled from the spec: the keyed rate limiter (the `governor` crate
behind `ApiState.rate_limiter`, constructed in ApiState::new with burst
`rate_limit_burst`) is not part of this repository; per the spec it has
token-bucket semantics, and the claims quantify over windows too short
for replenishment. The state is the per-key count of consumed units; a
check consumes a unit when the count is below the burst capacity and
rejects, consuming nothing, otherwise. -/
structure RateLimiterState where
  burst : Nat
  used : List (String × Nat)
deriving DecidableEq, Repr

/-- Modelled from the spec: `rate_limiter.check_key` — admit and consume
while below burst within the window, otherwise reject unchanged. -/
def RateLimiterState.check_key (rl : RateLimiterState) (key : String) :
    Bool × RateLimiterState :=
  let u := getCount rl.used key
  if u < rl.burst then
    (true, { rl with used := setCount rl.used key (u + 1) })
  else
    (false, rl)

/-- The incoming HTTP request as the handlers observe it: the two raw
identity headers (as UTF-8 strings when present) and the two extensions
the bearer-token validator of api/middleware/auth.rs inserts on
successful authentication (UserInfo and AuthInfo both carry the
tenant/user pair; the validator always inserts both together). -/
structure HttpRequest where
  x_tenant_id : Option String
  x_user_id : Option String
  user_info : Option (Int × Int)
  auth_info : Option (Int × Int)
deriving DecidableEq, Repr

/-- Numeric value of an ASCII digit. -/
def digitVal? (c : Char) : Option Nat :=
  if c.isDigit then some (c.toNat - 48) else none

/-- Accumulate a decimal number; any non-digit fails the parse. -/
def parseNatCore : List Char → Nat → Option Nat
  | [], acc => some acc
  | c :: rest, acc =>
    match digitVal? c with
    | some d => parseNatCore rest (acc * 10 + d)
    | none => none

/-- Rust `str::parse::<i64>`: an optional sign followed by at least one
ASCII digit and nothing else, within the i64 range. -/
def parse_i64 (s : String) : Option Int :=
  match s.toList with
  | [] => none
  | c :: rest =>
    let signDigits : Int × List Char :=
      if c = '+' then (1, rest)
      else if c = '-' then (-1, rest)
      else (1, c :: rest)
    match signDigits.snd with
    | [] => none
    | _ :: _ =>
      match parseNatCore signDigits.snd 0 with
      | none => none
      | some n =>
        let v : Int := signDigits.fst * Int.ofNat n
        if v < -(2 ^ 63) then none
        else if v > 2 ^ 63 - 1 then none
        else some v

/-- middleware::auth::extract_tenant_user — reads only the UserInfo
extension. -/
def auth_extract_tenant_user (req : HttpRequest) : Option (Int × Int) :=
  req.user_info

/-- handlers::extract_tenant_user — parse the X-Tenant-Id and X-User-Id
headers with fallback 0 each, then let an AuthInfo extension override
both. -/
def extract_tenant_user (req : HttpRequest) : Int × Int :=
  let tenant_id := (Option.bind req.x_tenant_id parse_i64).getD 0
  let user_id := (Option.bind req.x_user_id parse_i64).getD 0
  match req.auth_info with
  | some auth => auth
  | none => (tenant_id, user_id)

/-- The tenant:user composite rate-limit key, rendered as in the handlers. -/
def rate_limit_key_of (tenant_id user_id : Int) : String :=
  toString tenant_id ++ ":" ++ toString user_id

/-- The key generate_sync checks: middleware extraction with the (1, 1)
fallback. -/
def sync_rate_limit_key (req : HttpRequest) : String :=
  let tu := (auth_extract_tenant_user req).getD (1, 1)
  rate_limit_key_of tu.fst tu.snd

/-- The key generate_async checks: handler extraction (header parse with
fallback 0, overridden by AuthInfo). -/
def async_rate_limit_key (req : HttpRequest) : String :=
  let tu := extract_tenant_user req
  rate_limit_key_of tu.fst tu.snd

/-- Overwrite of `data.metadata.tenant_id` / `data.metadata.user_id` both
handlers perform on entry. -/
def set_request_tenant_user (d : DocumentRequest) (tenant_id user_id : Int) :
    DocumentRequest :=
  { d with metadata := { d.metadata with tenant_id := tenant_id, user_id := user_id } }

/-- An externally visible action of the two router handlers. The
`dbStatusWrite` constructor stands for an executed SQL statement against
the documents table; `kafkaPublish` is `kafka_producer.send` (recorded
whether or not the broker acknowledges); `render` records entering one of
the inline generation helpers, which immediately invoke the PDF/Excel
generators. -/
inductive ApiEffect where
  | kafkaPublish (topic : String) (key : String) (payload : DocumentRequest)
  | dbStatusWrite (response : DocumentResponse) (tenant_id user_id : Int)
  | render (kind : String) (id : String)
deriving DecidableEq, Repr

/-- The JSON bodies the two handlers build. -/
inductive Body where
  | rateLimited (error : String) (retry_after : Nat)
  | document (response : DocumentResponse)
  | generationError (error details : String)
  | queuedAck (id : String) (status : String) (estimated_time_seconds : Nat)
      (status_url : String)
  | queueError (error details : String)
deriving DecidableEq, Repr

/-- An HTTP response: status code plus body. -/
structure HttpResponse where
  status_code : Nat
  body : Body
deriving DecidableEq, Repr

/-- Mutable state the handlers touch besides the trace: the shared keyed
rate limiter and the wall clock read by `Utc::now()`. -/
structure ApiWorld where
  rate_limiter : RateLimiterState
  now : Int
deriving DecidableEq, Repr

/-- Collaborator outcomes for one router invocation: whether the broker
acknowledges the publish within the timeout, the outcomes of the two
inline generation helpers (markup plus compile plus S3 upload, yielding
the artifact URL or an error), and the elapsed time measured for the
inline path. -/
structure ApiEnv where
  kafka_ok : Bool
  invoice_render : DocumentRequest → Except String String
  report_render : DocumentRequest → Except String String
  elapsed_ms : Nat

/-- handlers::save_document_metadata — its body is entirely commented out
behind `TODO: Enable when database is configured`, so it executes no SQL
statement and contributes no effect. -/
def save_document_metadata (response : DocumentResponse)
    (tenant_id user_id : Int) : List ApiEffect :=
  []

/-- handlers::estimate_processing_time — the type/priority lookup table.
It has no caller in the source. -/
def estimate_processing_time (request : DocumentRequest) : Nat :=
  match request.document_type, request.priority with
  | DocumentType.Invoice, Priority.High => 30
  | DocumentType.Invoice, _ => 60
  | DocumentType.Report, Priority.High => 120
  | DocumentType.Report, _ => 300
  | _, _ => 180

/-- handlers::generate_invoice_sync — builds the PDF and uploads it; the
collaborator outcome is taken from the environment and the entry is
recorded as a render attempt. -/
def generate_invoice_sync (request : DocumentRequest) (env : ApiEnv) :
    Except String String × List ApiEffect :=
  (env.invoice_render request, [ApiEffect.render "invoice" request.id])

/-- handlers::generate_report_sync — builds the Excel artifact and uploads
it; the collaborator outcome is taken from the environment and the entry
is recorded as a render attempt. -/
def generate_report_sync (request : DocumentRequest) (env : ApiEnv) :
    Except String String × List ApiEffect :=
  (env.report_render request, [ApiEffect.render "report" request.id])

/-- handlers::generate_async. Extracts identity with
handlers::extract_tenant_user, overwrites the request metadata, checks
the rate limiter under that key (429 with retry_after 60 on rejection,
with no further action), picks the topic by priority, publishes the
serialized request keyed by its id, and on broker acknowledgment saves a
Queued record and answers 202 with the constant estimate 60; a delivery
failure answers 500. -/
def generate_async (req : HttpRequest) (data0 : DocumentRequest)
    (st : ApiWorld) (cfg : AppConfig) (env : ApiEnv) :
    HttpResponse × ApiWorld × List ApiEffect :=
  let tu := extract_tenant_user req
  let data := set_request_tenant_user data0 tu.fst tu.snd
  let rate_limit_key := rate_limit_key_of tu.fst tu.snd
  let checked := st.rate_limiter.check_key rate_limit_key
  if checked.fst = false then
    ({ status_code := 429, body := Body.rateLimited "Rate limit exceeded" 60 },
     st, [])
  else
    let st1 : ApiWorld := { st with rate_limiter := checked.snd }
    let topic := match data.priority with
      | Priority.High => cfg.kafka_topic_priority
      | _ => cfg.kafka_topic_bulk
    let document_id := data.id
    let publishEff := ApiEffect.kafkaPublish topic document_id data
    if env.kafka_ok then
      let response : DocumentResponse :=
        { id := document_id, status := DocumentStatus.Queued, url := none,
          error := none, processing_time_ms := 0, created_at := st1.now,
          expires_at := none }
      ({ status_code := 202,
         body := Body.queuedAck document_id "queued" 60
           ("/api/v1/documents/" ++ document_id ++ "/status") },
       st1, publishEff :: save_document_metadata response tu.fst tu.snd)
    else
      ({ status_code := 500,
         body := Body.queueError "Failed to queue document" "delivery error" },
       st1, [publishEff])

/-- handlers::generate_sync. Extracts identity with
middleware::auth::extract_tenant_user and fallback (1, 1), overwrites the
request metadata, checks the rate limiter under that key (429 with
retry_after 60 on rejection), measures the serialized payload size and
defers to generate_async when it exceeds max_sync_size_bytes; otherwise
Invoice, and Report below 100000 bytes, are rendered inline (200 with a
Completed record on success, 500 on failure) and every other type defers
to generate_async. -/
def generate_sync (req : HttpRequest) (data0 : DocumentRequest)
    (st : ApiWorld) (cfg : AppConfig) (env : ApiEnv) :
    HttpResponse × ApiWorld × List ApiEffect :=
  let tu := (auth_extract_tenant_user req).getD (1, 1)
  let data := set_request_tenant_user data0 tu.fst tu.snd
  let rate_limit_key := rate_limit_key_of tu.fst tu.snd
  let checked := st.rate_limiter.check_key rate_limit_key
  if checked.fst = false then
    ({ status_code := 429, body := Body.rateLimited "Rate limit exceeded" 60 },
     st, [])
  else
    let st1 : ApiWorld := { st with rate_limiter := checked.snd }
    let data_size := data.data.length
    if data_size > cfg.max_sync_size_bytes then
      generate_async req data st1 cfg env
    else
      let document_id := data.id
      match (match data.document_type with
             | DocumentType.Invoice => some (generate_invoice_sync data env)
             | DocumentType.Report =>
               if data_size < 100000 then some (generate_report_sync data env)
               else none
             | _ => none) with
      | none => generate_async req data st1 cfg env
      | some (Except.ok document_url, effs) =>
        let response : DocumentResponse :=
          { id := document_id, status := DocumentStatus.Completed,
            url := some document_url, error := none,
            processing_time_ms := env.elapsed_ms, created_at := st1.now,
            expires_at := none }
        ({ status_code := 200, body := Body.document response }, st1,
         effs ++ save_document_metadata response tu.fst tu.snd)
      | some (Except.error e, effs) =>
        ({ status_code := 500,
           body := Body.generationError "Failed to generate document" e },
         st1, effs)

/-! ## Template cache (templates/cache.rs) and manager (templates/manager.rs) -/

/-- CachedTemplate from templates/cache.rs; compiled_at is an instant and
ttl_seconds a span, both in seconds. -/
structure CachedTemplate where
  content : String
  compiled_at : Int
  ttl_seconds : Int
  version : String
deriving DecidableEq, Repr

/-- CachedTemplate::is_expired, with the `Utc::now()` it reads passed in:
expired exactly when now is past compiled_at plus the TTL. -/
def CachedTemplate.is_expired (t : CachedTemplate) (now : Int) : Bool :=
  let expiry := t.compiled_at + t.ttl_seconds
  decide (now > expiry)

/-- Association-list lookup standing for HashMap / Redis reads. -/
def lookupA {α : Type} : List (String × α) → String → Option α
  | [], _ => none
  | (k0, v0) :: rest, k => if k0 = k then some v0 else lookupA rest k

/-- Association-list insert standing for HashMap / Redis writes. -/
def insertA {α : Type} : List (String × α) → String → α → List (String × α)
  | [], k, v => [(k, v)]
  | (k0, v0) :: rest, k, v =>
    if k0 = k then (k, v) :: rest else (k0, v0) :: insertA rest k v

/-- Association-list removal standing for HashMap / Redis deletes. -/
def removeA {α : Type} : List (String × α) → String → List (String × α)
  | [], _ => []
  | (k0, v0) :: rest, k =>
    if k0 = k then rest else (k0, v0) :: removeA rest k

/-- TemplateCache from templates/cache.rs: the in-process map and the
optional Redis tier (none when no Redis client was configured). A Redis
value a get can use is one that is present and deserializes; a missing or
unparseable value falls through identically, so the tier maps ids to the
parsed CachedTemplate records. -/
structure TemplateCache where
  memory_cache : List (String × CachedTemplate)
  redis_cache : Option (List (String × CachedTemplate))
  ttl_seconds : Int
deriving DecidableEq, Repr

/-- The Redis half of TemplateCache::get (cache.rs lines 57..68): a
present, parseable, unexpired entry is copied into the memory tier and
returned; anything else yields None. -/
def TemplateCache.get_redis_tier (c : TemplateCache) (template_id : String)
    (now : Int) : Option CachedTemplate × TemplateCache :=
  match c.redis_cache with
  | some redis =>
    match lookupA redis template_id with
    | some template =>
      if (! template.is_expired now) = true then
        (some template,
         { c with memory_cache := insertA c.memory_cache template_id template })
      else (none, c)
    | none => (none, c)
  | none => (none, c)

/-- TemplateCache::get: the memory tier answers only when present and
unexpired; otherwise (including when the memory entry is expired) the
Redis tier is consulted. -/
def TemplateCache.get (c : TemplateCache) (template_id : String) (now : Int) :
    Option CachedTemplate × TemplateCache :=
  match lookupA c.memory_cache template_id with
  | some template =>
    if (! template.is_expired now) = true then (some template, c)
    else TemplateCache.get_redis_tier c template_id now
  | none => TemplateCache.get_redis_tier c template_id now

/-- The record TemplateCache::set builds before writing the tiers. -/
def TemplateCache.mk_cached (c : TemplateCache) (content version : String)
    (now : Int) : CachedTemplate :=
  { content := content, compiled_at := now, ttl_seconds := c.ttl_seconds,
    version := version }

/-- First write of TemplateCache::set: the in-process map. -/
def TemplateCache.set_memory_tier (c : TemplateCache) (template_id : String)
    (cached : CachedTemplate) : TemplateCache :=
  { c with memory_cache := insertA c.memory_cache template_id cached }

/-- Second write of TemplateCache::set: the Redis set_ex (a no-op when no
Redis client is configured). -/
def TemplateCache.set_redis_tier (c : TemplateCache) (template_id : String)
    (cached : CachedTemplate) : TemplateCache :=
  match c.redis_cache with
  | some redis => { c with redis_cache := some (insertA redis template_id cached) }
  | none => c

/-- TemplateCache::set — build the record, write memory, then Redis. -/
def TemplateCache.set (c : TemplateCache) (template_id content version : String)
    (now : Int) : TemplateCache :=
  let cached := c.mk_cached content version now
  (c.set_memory_tier template_id cached).set_redis_tier template_id cached

/-- TemplateCache::invalidate — remove from memory and Redis only. -/
def TemplateCache.invalidate (c : TemplateCache) (template_id : String) :
    TemplateCache :=
  let c1 := { c with memory_cache := removeA c.memory_cache template_id }
  match c1.redis_cache with
  | some redis => { c1 with redis_cache := some (removeA redis template_id) }
  | none => c1

/-- TemplateManager from templates/manager.rs: the Typst engine registry,
the loaded-templates map, the cache, the optional S3 bucket (keys are
full object keys) and the local template directory (keys are file
names). -/
structure TemplateManager where
  engine : List (String × String)
  templates : List (String × String)
  cache : TemplateCache
  s3_templates : Option (List (String × String))
  local_fs : List (String × String)
deriving DecidableEq, Repr

/-- TemplateManager::update_template — load into the engine, insert into
the in-memory map, write through the cache tiers, then put to S3 when a
client is configured, and write the local file last. -/
def TemplateManager.update_template (m : TemplateManager)
    (template_id content : String) (now : Int) : TemplateManager :=
  let m1 := { m with engine := insertA m.engine template_id content }
  let m2 := { m1 with templates := insertA m1.templates template_id content }
  let m3 := { m2 with cache := m2.cache.set template_id content "1.0.0" now }
  let m4 := match m3.s3_templates with
    | some s3 =>
      let key := "templates/" ++ template_id ++ ".typ"
      { m3 with s3_templates := some (insertA s3 key content) }
    | none => m3
  { m4 with local_fs := insertA m4.local_fs (template_id ++ ".typ") content }

/-- The state after each successive write of
TemplateManager::update_template, in source order: engine load, memory
map insert, cache memory tier, cache Redis tier, S3 put (a no-op when no
client is configured), local file write. Each prefix is a point at which
the update can be interrupted. -/
def TemplateManager.update_template_states (m : TemplateManager)
    (template_id content : String) (now : Int) : List TemplateManager :=
  let cached := m.cache.mk_cached content "1.0.0" now
  let m1 := { m with engine := insertA m.engine template_id content }
  let m2 := { m1 with templates := insertA m1.templates template_id content }
  let m3 := { m2 with cache := m2.cache.set_memory_tier template_id cached }
  let m4 := { m3 with cache := m3.cache.set_redis_tier template_id cached }
  let m5 := match m4.s3_templates with
    | some s3 =>
      let key := "templates/" ++ template_id ++ ".typ"
      { m4 with s3_templates := some (insertA s3 key content) }
    | none => m4
  let m6 := { m5 with local_fs := insertA m5.local_fs (template_id ++ ".typ") content }
  [m1, m2, m3, m4, m5, m6]

/-! ## Worker-pool claims -/

/-- A concrete render environment whose routines always succeed; used for
concrete evaluations. -/
def envOkRender : RenderEnv :=
  { invoice := fun _ => Except.ok "https://cdn.example/doc.pdf"
    report := fun _ => Except.ok "https://cdn.example/report.xlsx"
    processing_time_ms := 7 }

/-- Claim C1 is false on the code: when the queue payload does not
deserialize into a DocumentRequest, `serde_json::from_slice(payload)?`
propagates the error out of process_single_message before any commit, so
the worker commits nothing (and performs no render and no status write);
the claimed immediate commit of the poison message does not happen. -/
theorem C1_counterexample :
    commit_count (process_single_message (Except.error "invalid json") envOkRender).fst = 0 ∧
    (process_single_message (Except.error "invalid json") envOkRender).fst = [] ∧
    (process_single_message (Except.error "invalid json") envOkRender).snd =
      Except.error "invalid json" :=
  ⟨rfl, rfl, rfl⟩

/-- Claim C1 as amended: for every dequeued message whose payload cannot
be deserialized, the worker performs no effect at all — no render, no
status write and, contrary to the claim, no commit — and returns the
error (which the caller logs); since the offset is not committed the
message can be redelivered. -/
theorem C1_amended_poison_not_committed (e : String) (env : RenderEnv) :
    process_single_message (Except.error e) env = ([], Except.error e) :=
  rfl

/-- Claim C2: for every successfully deserialized job the worker commits
the offset exactly once per processing attempt, only after a terminal
status (Completed with the artifact URL, or Failed with the error text)
has been persisted, and dispatches the render exactly once (no
pipeline-internal retry); on render failure it still commits. -/
theorem C2_commit_once_after_terminal (request : DocumentRequest) (env : RenderEnv) :
    commit_count (process_single_message (Except.ok request) env).fst = 1 ∧
    commits_after_terminal (process_single_message (Except.ok request) env).fst = true ∧
    render_count (process_single_message (Except.ok request) env).fst = 1 ∧
    (match dispatch_generate env request with
     | Except.ok url =>
       WorkerEffect.saveCompleted request.id url env.processing_time_ms ∈
         (process_single_message (Except.ok request) env).fst
     | Except.error e =>
       WorkerEffect.saveFailed request.id e ∈
         (process_single_message (Except.ok request) env).fst) := by
  cases hr : dispatch_generate env request with
  | ok url =>
    cases hcb : request.callback_url with
    | some cb =>
      simp [process_single_message, update_status, save_completed_document,
        save_failed_document, hr, hcb, commit_count, render_count,
        commits_after_terminal, commits_after_terminal_aux, is_terminal_write]
    | none =>
      simp [process_single_message, update_status, save_completed_document,
        save_failed_document, hr, hcb, commit_count, render_count,
        commits_after_terminal, commits_after_terminal_aux, is_terminal_write]
  | error e =>
    simp [process_single_message, update_status, save_completed_document,
      save_failed_document, hr, commit_count, render_count,
      commits_after_terminal, commits_after_terminal_aux, is_terminal_write]

/-! ## Template-cache claims -/

/-- The Redis half of a get never returns an expired entry. -/
theorem get_redis_tier_not_expired (c : TemplateCache) (template_id : String)
    (now : Int) :
    (match (c.get_redis_tier template_id now).fst with
     | some t => t.is_expired now = false
     | none => True) := by
  unfold TemplateCache.get_redis_tier
  cases hr : c.redis_cache with
  | none => simp
  | some redis =>
    cases hl : lookupA redis template_id with
    | none => simp [hl]
    | some t =>
      cases he : t.is_expired now with
      | false => simp [hl, he]
      | true => simp [hl, he]

/-- Claim C7: is_expired is true exactly when now is past compiled_at
plus the TTL; TemplateCache::get never returns an entry expired at read
time; and an expired entry in the memory tier is skipped — the get
revalidates against the Redis tier exactly as if the memory entry were
absent. -/
theorem C7_expiry_invariant :
    (∀ (t : CachedTemplate) (now : Int),
        t.is_expired now = true ↔ now > t.compiled_at + t.ttl_seconds) ∧
    (∀ (c : TemplateCache) (template_id : String) (now : Int),
        match (c.get template_id now).fst with
        | some t => t.is_expired now = false
        | none => True) ∧
    (∀ (c : TemplateCache) (template_id : String) (now : Int) (t : CachedTemplate),
        lookupA c.memory_cache template_id = some t →
        t.is_expired now = true →
        c.get template_id now = c.get_redis_tier template_id now) := by
  refine ⟨?_, ?_, ?_⟩
  · intro t now
    simp [CachedTemplate.is_expired]
  · intro c template_id now
    unfold TemplateCache.get
    cases hm : lookupA c.memory_cache template_id with
    | none => exact get_redis_tier_not_expired c template_id now
    | some t =>
      cases he : t.is_expired now with
      | false => simp [he]
      | true =>
        simp only [he]
        simpa using get_redis_tier_not_expired c template_id now
  · intro c template_id now t hm he
    unfold TemplateCache.get
    simp [hm, he]

/-- A fresh cache entry, compiled at time 0 with a one-hour TTL. -/
def cachedV1 : CachedTemplate :=
  { content := "v1", compiled_at := 0, ttl_seconds := 3600, version := "1.0.0" }

/-- An entry already stale at the read instants used below. -/
def cachedStale : CachedTemplate :=
  { content := "old", compiled_at := 0, ttl_seconds := 10, version := "0.9.0" }

/-- A cache whose memory tier holds a stale entry while Redis holds a
fresh one. -/
def cacheEx : TemplateCache :=
  { memory_cache := [("tpl", cachedStale)]
    redis_cache := some [("tpl", cachedV1)]
    ttl_seconds := 3600 }

/-- Witness for claim C7 at a concrete cache: the stale memory entry for
"tpl" at time 100 is skipped in favour of the Redis tier, and the result
of the get is not expired. -/
theorem C7_expiry_invariant_witness :
    (match (cacheEx.get "tpl" 100).fst with
     | some t => t.is_expired 100 = false
     | none => True) ∧
    cacheEx.get "tpl" 100 = cacheEx.get_redis_tier "tpl" 100 := by
  refine ⟨C7_expiry_invariant.2.1 cacheEx "tpl" 100, ?_⟩
  exact C7_expiry_invariant.2.2 cacheEx "tpl" 100 cachedStale (by decide) (by decide)

/-- A manager state in which every tier agrees on content "v1" for
template "tpl". -/
def managerEx : TemplateManager :=
  { engine := [("tpl", "v1")]
    templates := [("tpl", "v1")]
    cache := { memory_cache := [("tpl", cachedV1)]
               redis_cache := some [("tpl", cachedV1)]
               ttl_seconds := 3600 }
    s3_templates := some [("templates/tpl.typ", "v1")]
    local_fs := [("tpl.typ", "v1")] }

/-- Claim C8 is false on the code: update_template writes the cache tiers
before the durable stores, so at the intermediate point just after the
cache Redis write (state index 3, before the S3 put and the local file
write) both cache tiers already hold the new content "v2" while the
durable store still holds "v1" — a crash there leaves the cache ahead of
durable truth. -/
theorem C8_counterexample :
    (lookupA ((managerEx.update_template_states "tpl" "v2" 10).getD 3
        managerEx).cache.memory_cache "tpl").map CachedTemplate.content = some "v2" ∧
    (lookupA (((managerEx.update_template_states "tpl" "v2" 10).getD 3
        managerEx).cache.redis_cache.getD []) "tpl").map CachedTemplate.content = some "v2" ∧
    lookupA ((managerEx.update_template_states "tpl" "v2" 10).getD 3
        managerEx).local_fs "tpl.typ" = some "v1" ∧
    ("v2" : String) ≠ "v1" := by
  refine ⟨?_, ?_, ?_, ?_⟩ <;> decide

/-- Claim C8 as amended: update_template does write through every tier
synchronously and writes the durable store last — the local file is
untouched in all five intermediate states and written only in the final
one — but consequently, between the cache write (already effective at
state index 2) and the final durable write, the cache tiers hold content
newer than the durable store, so a crash mid-write can leave the cache
ahead of durable truth (until the entry expires or is invalidated),
rather than never doing so. -/
theorem C8_amended_durable_last (m : TemplateManager)
    (template_id content : String) (now : Int) :
    (m.update_template_states template_id content now).length = 6 ∧
    (m.update_template_states template_id content now).getD 5 m =
      m.update_template template_id content now ∧
    ((m.update_template_states template_id content now).getD 0 m).local_fs = m.local_fs ∧
    ((m.update_template_states template_id content now).getD 1 m).local_fs = m.local_fs ∧
    ((m.update_template_states template_id content now).getD 2 m).local_fs = m.local_fs ∧
    ((m.update_template_states template_id content now).getD 3 m).local_fs = m.local_fs ∧
    ((m.update_template_states template_id content now).getD 4 m).local_fs = m.local_fs ∧
    ((m.update_template_states template_id content now).getD 5 m).local_fs =
      insertA m.local_fs (template_id ++ ".typ") content ∧
    ((m.update_template_states template_id content now).getD 2 m).cache.memory_cache =
      insertA m.cache.memory_cache template_id
        (m.cache.mk_cached content "1.0.0" now) := by
  cases hs3 : m.s3_templates with
  | none =>
    refine ⟨rfl, ?_, ?_, ?_, ?_, ?_, ?_, ?_, ?_⟩ <;>
      simp [TemplateManager.update_template_states, TemplateManager.update_template,
        TemplateCache.set, TemplateCache.set_memory_tier, TemplateCache.set_redis_tier,
        TemplateCache.mk_cached, hs3, List.getD]
  | some s3 =>
    refine ⟨rfl, ?_, ?_, ?_, ?_, ?_, ?_, ?_, ?_⟩ <;>
      simp [TemplateManager.update_template_states, TemplateManager.update_template,
        TemplateCache.set, TemplateCache.set_memory_tier, TemplateCache.set_redis_tier,
        TemplateCache.mk_cached, hs3, List.getD]

/-! ## Rate-limiter lemmas -/

/-- Setting a key then reading it gives the value just set. -/
theorem getCount_setCount_same (m : List (String × Nat)) (k : String) (v : Nat) :
    getCount (setCount m k v) k = v := by
  induction m with
  | nil => simp [setCount, getCount]
  | cons p rest ih =>
    obtain ⟨k0, v0⟩ := p
    by_cases h : k0 = k
    · simp [setCount, getCount, h]
    · simp [setCount, getCount, h, ih]

/-- Setting one key leaves every other key unchanged. -/
theorem getCount_setCount_ne (m : List (String × Nat)) (k k2 : String) (v : Nat)
    (h : k2 ≠ k) :
    getCount (setCount m k v) k2 = getCount m k2 := by
  have h2 : k ≠ k2 := fun he => h he.symm
  induction m with
  | nil => simp [setCount, getCount, h2]
  | cons p rest ih =>
    obtain ⟨k0, v0⟩ := p
    by_cases h0 : k0 = k
    · subst h0
      simp [setCount, getCount, h2]
    · simp [setCount, getCount, h0, ih]

/-- A check admits exactly when the consumed count is below burst. -/
theorem check_key_fst (rl : RateLimiterState) (k : String) :
    (rl.check_key k).fst = decide (getCount rl.used k < rl.burst) := by
  unfold RateLimiterState.check_key
  by_cases h : getCount rl.used k < rl.burst <;> simp [h]

/-- A check never changes the burst capacity. -/
theorem check_key_burst (rl : RateLimiterState) (k : String) :
    (rl.check_key k).snd.burst = rl.burst := by
  unfold RateLimiterState.check_key
  by_cases h : getCount rl.used k < rl.burst <;> simp [h]

/-- A check on one key leaves the count of every other key unchanged. -/
theorem check_key_count_ne (rl : RateLimiterState) (k k2 : String) (h : k2 ≠ k) :
    getCount (rl.check_key k).snd.used k2 = getCount rl.used k2 := by
  unfold RateLimiterState.check_key
  by_cases hc : getCount rl.used k < rl.burst <;>
    simp [hc, getCount_setCount_ne _ _ _ _ h]

/-- The count of the checked key after a check: consumed below burst,
unchanged at or above it. -/
theorem check_key_count_eq (rl : RateLimiterState) (k : String) :
    getCount (rl.check_key k).snd.used k =
      (if getCount rl.used k < rl.burst then getCount rl.used k + 1
       else getCount rl.used k) := by
  unfold RateLimiterState.check_key
  by_cases hc : getCount rl.used k < rl.burst <;>
    simp [hc, getCount_setCount_same]

/-- A rejected check returns the limiter unchanged. -/
theorem check_key_fail (rl : RateLimiterState) (k : String)
    (h : ¬ getCount rl.used k < rl.burst) :
    rl.check_key k = (false, rl) := by
  unfold RateLimiterState.check_key
  simp [h]

/-! ## generate_async lemmas -/

/-- The incoming metadata overwrite is absorbed: generate_async
immediately overwrites the tenant/user metadata with its own extraction,
so a prior overwrite of the same fields is invisible. -/
theorem generate_async_meta (req : HttpRequest) (d : DocumentRequest)
    (t u : Int) (st : ApiWorld) (cfg : AppConfig) (env : ApiEnv) :
    generate_async req (set_request_tenant_user d t u) st cfg env =
      generate_async req d st cfg env := rfl

/-- An exhausted bucket under the async key makes generate_async answer
429 with retry_after 60, no effect, and an unchanged world. -/
theorem generate_async_rejected (req : HttpRequest) (d : DocumentRequest)
    (st : ApiWorld) (cfg : AppConfig) (env : ApiEnv)
    (h : ¬ getCount st.rate_limiter.used (async_rate_limit_key req) <
          st.rate_limiter.burst) :
    generate_async req d st cfg env =
      ({ status_code := 429, body := Body.rateLimited "Rate limit exceeded" 60 },
       st, []) := by
  unfold generate_async
  simp only [async_rate_limit_key] at h
  simp [check_key_fst, h]

/-- generate_async leaves the wall clock unchanged. -/
theorem generate_async_now (req : HttpRequest) (d : DocumentRequest)
    (st : ApiWorld) (cfg : AppConfig) (env : ApiEnv) :
    (generate_async req d st cfg env).snd.fst.now = st.now := by
  unfold generate_async
  by_cases hc : (st.rate_limiter.check_key (async_rate_limit_key req)).fst = false <;>
    by_cases hk : env.kafka_ok <;>
    simp [async_rate_limit_key] at hc ⊢ <;>
    simp [hc, hk]

/-- generate_async leaves the burst capacity unchanged. -/
theorem generate_async_burst (req : HttpRequest) (d : DocumentRequest)
    (st : ApiWorld) (cfg : AppConfig) (env : ApiEnv) :
    (generate_async req d st cfg env).snd.fst.rate_limiter.burst =
      st.rate_limiter.burst := by
  unfold generate_async
  by_cases hc : (st.rate_limiter.check_key (async_rate_limit_key req)).fst = false <;>
    by_cases hk : env.kafka_ok <;>
    simp [async_rate_limit_key] at hc ⊢ <;>
    simp [hc, hk, check_key_burst]

/-- generate_async changes no count other than that of the async key. -/
theorem generate_async_count_ne (req : HttpRequest) (d : DocumentRequest)
    (st : ApiWorld) (cfg : AppConfig) (env : ApiEnv) (k2 : String)
    (h : k2 ≠ async_rate_limit_key req) :
    getCount (generate_async req d st cfg env).snd.fst.rate_limiter.used k2 =
      getCount st.rate_limiter.used k2 := by
  unfold generate_async
  simp only [async_rate_limit_key] at h
  by_cases hc : (st.rate_limiter.check_key
      (rate_limit_key_of (extract_tenant_user req).fst (extract_tenant_user req).snd)).fst = false <;>
    by_cases hk : env.kafka_ok <;>
    simp [hc, hk, check_key_count_ne _ _ _ h]

/-- The count of the async key after generate_async: consumed below burst,
unchanged at or above it. -/
theorem generate_async_count_eq (req : HttpRequest) (d : DocumentRequest)
    (st : ApiWorld) (cfg : AppConfig) (env : ApiEnv) :
    getCount (generate_async req d st cfg env).snd.fst.rate_limiter.used
        (async_rate_limit_key req) =
      (if getCount st.rate_limiter.used (async_rate_limit_key req) <
            st.rate_limiter.burst
       then getCount st.rate_limiter.used (async_rate_limit_key req) + 1
       else getCount st.rate_limiter.used (async_rate_limit_key req)) := by
  unfold generate_async
  simp only [async_rate_limit_key]
  by_cases hc : getCount st.rate_limiter.used
      (rate_limit_key_of (extract_tenant_user req).fst (extract_tenant_user req).snd) <
      st.rate_limiter.burst <;>
    by_cases hk : env.kafka_ok <;>
    simp [check_key_fst, hc, hk, check_key_count_eq]

/-- The trace of generate_async never contains a render attempt. -/
def has_render_effect : List ApiEffect → Bool
  | [] => false
  | ApiEffect.render _ _ :: _ => true
  | _ :: rest => has_render_effect rest

/-- generate_async never attempts an inline render. -/
theorem generate_async_no_render (req : HttpRequest) (d : DocumentRequest)
    (st : ApiWorld) (cfg : AppConfig) (env : ApiEnv) :
    has_render_effect (generate_async req d st cfg env).snd.snd = false := by
  unfold generate_async
  by_cases hc : (st.rate_limiter.check_key
      (rate_limit_key_of (extract_tenant_user req).fst (extract_tenant_user req).snd)).fst = false <;>
    by_cases hk : env.kafka_ok <;>
    simp [hc, hk, has_render_effect, save_document_metadata]

/-- Two worlds agreeing on the clock, the burst and the count of the async key
make generate_async produce the same response and the same effects. -/
theorem generate_async_congr (req : HttpRequest) (d : DocumentRequest)
    (cfg : AppConfig) (env : ApiEnv) (w1 w2 : ApiWorld)
    (hnow : w1.now = w2.now)
    (hb : w1.rate_limiter.burst = w2.rate_limiter.burst)
    (ha : getCount w1.rate_limiter.used (async_rate_limit_key req) =
          getCount w2.rate_limiter.used (async_rate_limit_key req)) :
    (generate_async req d w1 cfg env).fst = (generate_async req d w2 cfg env).fst ∧
    (generate_async req d w1 cfg env).snd.snd =
      (generate_async req d w2 cfg env).snd.snd := by
  unfold generate_async
  simp only [async_rate_limit_key] at ha
  by_cases hc : getCount w1.rate_limiter.used
      (rate_limit_key_of (extract_tenant_user req).fst (extract_tenant_user req).snd) <
      w1.rate_limiter.burst <;>
    by_cases hk : env.kafka_ok <;>
    simp [check_key_fst, hc, ha ▸ hb ▸ hc, hk, hnow, ha, hb]

/-! ## generate_sync lemmas -/

/-- An exhausted bucket under the sync key makes generate_sync answer 429
with retry_after 60, no effect, and an unchanged world. -/
theorem generate_sync_rejected (req : HttpRequest) (d : DocumentRequest)
    (w : ApiWorld) (cfg : AppConfig) (env : ApiEnv)
    (h : ¬ getCount w.rate_limiter.used (sync_rate_limit_key req) <
          w.rate_limiter.burst) :
    generate_sync req d w cfg env =
      ({ status_code := 429, body := Body.rateLimited "Rate limit exceeded" 60 },
       w, []) := by
  have hfst : (w.rate_limiter.check_key (sync_rate_limit_key req)).fst = false := by
    rw [check_key_fst]; exact decide_eq_false h
  rw [generate_sync]
  simp only [sync_rate_limit_key] at hfst
  simp only [hfst, if_true]

/-- generate_sync either rejects on its own check leaving the world
untouched, or answers inline from the once-charged world, or defers to
generate_async on the once-charged world. -/
theorem generate_sync_world_cases (req : HttpRequest) (d : DocumentRequest)
    (w : ApiWorld) (cfg : AppConfig) (env : ApiEnv) :
    (¬ getCount w.rate_limiter.used (sync_rate_limit_key req) <
         w.rate_limiter.burst ∧
       generate_sync req d w cfg env =
         ({ status_code := 429, body := Body.rateLimited "Rate limit exceeded" 60 },
          w, [])) ∨
    ((generate_sync req d w cfg env).snd.fst =
       { w with rate_limiter :=
           (w.rate_limiter.check_key (sync_rate_limit_key req)).snd }) ∨
    (generate_sync req d w cfg env =
       generate_async req d
         { w with rate_limiter :=
             (w.rate_limiter.check_key (sync_rate_limit_key req)).snd }
         cfg env) := by
  by_cases hc : getCount w.rate_limiter.used (sync_rate_limit_key req) <
      w.rate_limiter.burst
  · have hfst : (w.rate_limiter.check_key (sync_rate_limit_key req)).fst = true := by
      rw [check_key_fst]; exact decide_eq_true hc
    rw [generate_sync]
    simp only [sync_rate_limit_key] at hfst ⊢
    rw [hfst]
    simp only [Bool.true_eq_false, if_false]
    by_cases hsz : (set_request_tenant_user d
        ((auth_extract_tenant_user req).getD (1, 1)).fst
        ((auth_extract_tenant_user req).getD (1, 1)).snd).data.length >
        cfg.max_sync_size_bytes
    · simp only [hsz, if_true]
      exact Or.inr (Or.inr (generate_async_meta req d _ _ _ cfg env))
    · simp only [hsz, if_false]
      cases hdt : (set_request_tenant_user d
          ((auth_extract_tenant_user req).getD (1, 1)).fst
          ((auth_extract_tenant_user req).getD (1, 1)).snd).document_type with
      | Invoice =>
        simp only [hdt, generate_invoice_sync]
        cases hr : env.invoice_render (set_request_tenant_user d
            ((auth_extract_tenant_user req).getD (1, 1)).fst
            ((auth_extract_tenant_user req).getD (1, 1)).snd) with
        | ok u => exact Or.inr (Or.inl rfl)
        | error e => exact Or.inr (Or.inl rfl)
      | Report =>
        by_cases hrs : (set_request_tenant_user d
            ((auth_extract_tenant_user req).getD (1, 1)).fst
            ((auth_extract_tenant_user req).getD (1, 1)).snd).data.length < 100000
        · simp only [hdt, hrs, if_true, generate_report_sync]
          cases hr : env.report_render (set_request_tenant_user d
              ((auth_extract_tenant_user req).getD (1, 1)).fst
              ((auth_extract_tenant_user req).getD (1, 1)).snd) with
          | ok u => exact Or.inr (Or.inl rfl)
          | error e => exact Or.inr (Or.inl rfl)
        · simp only [hdt, hrs, if_false]
          exact Or.inr (Or.inr (generate_async_meta req d _ _ _ cfg env))
      | Certificate =>
        simp only [hdt]
        exact Or.inr (Or.inr (generate_async_meta req d _ _ _ cfg env))
      | Statement =>
        simp only [hdt]
        exact Or.inr (Or.inr (generate_async_meta req d _ _ _ cfg env))
      | Receipt =>
        simp only [hdt]
        exact Or.inr (Or.inr (generate_async_meta req d _ _ _ cfg env))
      | Custom name =>
        simp only [hdt]
        exact Or.inr (Or.inr (generate_async_meta req d _ _ _ cfg env))
  · exact Or.inl ⟨hc, generate_sync_rejected req d w cfg env hc⟩

/-- generate_sync leaves the wall clock unchanged. -/
theorem generate_sync_now (req : HttpRequest) (d : DocumentRequest)
    (w : ApiWorld) (cfg : AppConfig) (env : ApiEnv) :
    (generate_sync req d w cfg env).snd.fst.now = w.now := by
  rcases generate_sync_world_cases req d w cfg env with ⟨_, h⟩ | h | h
  · rw [h]
  · rw [h]
  · rw [h, generate_async_now]

/-- generate_sync leaves the burst capacity unchanged. -/
theorem generate_sync_burst (req : HttpRequest) (d : DocumentRequest)
    (w : ApiWorld) (cfg : AppConfig) (env : ApiEnv) :
    (generate_sync req d w cfg env).snd.fst.rate_limiter.burst =
      w.rate_limiter.burst := by
  rcases generate_sync_world_cases req d w cfg env with ⟨_, h⟩ | h | h
  · rw [h]
  · rw [h]; exact check_key_burst _ _
  · rw [h, generate_async_burst]; exact check_key_burst _ _

/-- generate_sync changes no count other than the sync and async keys. -/
theorem generate_sync_count_ne (req : HttpRequest) (d : DocumentRequest)
    (w : ApiWorld) (cfg : AppConfig) (env : ApiEnv) (k2 : String)
    (hks : k2 ≠ sync_rate_limit_key req) (hka : k2 ≠ async_rate_limit_key req) :
    getCount (generate_sync req d w cfg env).snd.fst.rate_limiter.used k2 =
      getCount w.rate_limiter.used k2 := by
  rcases generate_sync_world_cases req d w cfg env with ⟨_, h⟩ | h | h
  · rw [h]
  · rw [h]; exact check_key_count_ne _ _ _ hks
  · rw [h, generate_async_count_ne _ _ _ _ _ _ hka]
    exact check_key_count_ne _ _ _ hks

/-- Two worlds agreeing on the clock, the burst and the counts under the
sync and async keys make generate_sync produce the same response and the
same effects. -/
theorem generate_sync_congr (req : HttpRequest) (d : DocumentRequest)
    (cfg : AppConfig) (env : ApiEnv) (w1 w2 : ApiWorld)
    (hnow : w1.now = w2.now)
    (hb : w1.rate_limiter.burst = w2.rate_limiter.burst)
    (hs : getCount w1.rate_limiter.used (sync_rate_limit_key req) =
          getCount w2.rate_limiter.used (sync_rate_limit_key req))
    (ha : getCount w1.rate_limiter.used (async_rate_limit_key req) =
          getCount w2.rate_limiter.used (async_rate_limit_key req)) :
    (generate_sync req d w1 cfg env).fst = (generate_sync req d w2 cfg env).fst ∧
    (generate_sync req d w1 cfg env).snd.snd =
      (generate_sync req d w2 cfg env).snd.snd := by
  by_cases hc : getCount w2.rate_limiter.used (sync_rate_limit_key req) <
      w2.rate_limiter.burst
  case neg =>
    have h1 : ¬ getCount w1.rate_limiter.used (sync_rate_limit_key req) <
        w1.rate_limiter.burst := by rw [hs, hb]; exact hc
    rw [generate_sync_rejected req d w1 cfg env h1,
        generate_sync_rejected req d w2 cfg env hc]
    exact ⟨rfl, rfl⟩
  case pos =>
    have h1 : getCount w1.rate_limiter.used (sync_rate_limit_key req) <
        w1.rate_limiter.burst := by rw [hs, hb]; exact hc
    have hf1 : (w1.rate_limiter.check_key (sync_rate_limit_key req)).fst = true := by
      rw [check_key_fst]; exact decide_eq_true h1
    have hf2 : (w2.rate_limiter.check_key (sync_rate_limit_key req)).fst = true := by
      rw [check_key_fst]; exact decide_eq_true hc
    have hacount : getCount (w1.rate_limiter.check_key
          (sync_rate_limit_key req)).snd.used (async_rate_limit_key req) =
        getCount (w2.rate_limiter.check_key
          (sync_rate_limit_key req)).snd.used (async_rate_limit_key req) := by
      by_cases hk : async_rate_limit_key req = sync_rate_limit_key req
      · rw [hk, check_key_count_eq, check_key_count_eq, hs, hb]
      · rw [check_key_count_ne _ _ _ hk, check_key_count_ne _ _ _ hk]; exact ha
    have hcongr := generate_async_congr req d cfg env
      { w1 with rate_limiter := (w1.rate_limiter.check_key (sync_rate_limit_key req)).snd }
      { w2 with rate_limiter := (w2.rate_limiter.check_key (sync_rate_limit_key req)).snd }
      hnow
      (by simpa [check_key_burst] using hb)
      hacount
    rw [generate_sync]
    rw [generate_sync]
    simp only [sync_rate_limit_key] at hf1 hf2 hcongr ⊢
    rw [hf1, hf2]
    simp only [Bool.true_eq_false, if_false]
    by_cases hsz : (set_request_tenant_user d
        ((auth_extract_tenant_user req).getD (1, 1)).fst
        ((auth_extract_tenant_user req).getD (1, 1)).snd).data.length >
        cfg.max_sync_size_bytes
    · simp only [hsz, if_true]
      rw [generate_async_meta, generate_async_meta]
      exact hcongr
    · simp only [hsz, if_false]
      cases hdt : (set_request_tenant_user d
          ((auth_extract_tenant_user req).getD (1, 1)).fst
          ((auth_extract_tenant_user req).getD (1, 1)).snd).document_type with
      | Invoice =>
        simp only [hdt, generate_invoice_sync]
        cases hr : env.invoice_render (set_request_tenant_user d
            ((auth_extract_tenant_user req).getD (1, 1)).fst
            ((auth_extract_tenant_user req).getD (1, 1)).snd) with
        | ok u => exact ⟨by simp [hnow], rfl⟩
        | error e => exact ⟨rfl, rfl⟩
      | Report =>
        by_cases hrs : (set_request_tenant_user d
            ((auth_extract_tenant_user req).getD (1, 1)).fst
            ((auth_extract_tenant_user req).getD (1, 1)).snd).data.length < 100000
        · simp only [hdt, hrs, if_true, generate_report_sync]
          cases hr : env.report_render (set_request_tenant_user d
              ((auth_extract_tenant_user req).getD (1, 1)).fst
              ((auth_extract_tenant_user req).getD (1, 1)).snd) with
          | ok u => exact ⟨by simp [hnow], rfl⟩
          | error e => exact ⟨rfl, rfl⟩
        · simp only [hdt, hrs, if_false]
          rw [generate_async_meta, generate_async_meta]
          exact hcongr
      | Certificate =>
        simp only [hdt]
        rw [generate_async_meta, generate_async_meta]
        exact hcongr
      | Statement =>
        simp only [hdt]
        rw [generate_async_meta, generate_async_meta]
        exact hcongr
      | Receipt =>
        simp only [hdt]
        rw [generate_async_meta, generate_async_meta]
        exact hcongr
      | Custom name =>
        simp only [hdt]
        rw [generate_async_meta, generate_async_meta]
        exact hcongr

/-- When the sync and async keys coincide, one generate_sync call keeps
the count of the key within burst and, if capacity remained, consumes at least
one unit. -/
theorem generate_sync_count_progress (req : HttpRequest) (d : DocumentRequest)
    (w : ApiWorld) (cfg : AppConfig) (env : ApiEnv) (k : String)
    (hks : sync_rate_limit_key req = k) (hka : async_rate_limit_key req = k)
    (hle : getCount w.rate_limiter.used k ≤ w.rate_limiter.burst) :
    getCount (generate_sync req d w cfg env).snd.fst.rate_limiter.used k ≥
      min (getCount w.rate_limiter.used k + 1) w.rate_limiter.burst ∧
    getCount (generate_sync req d w cfg env).snd.fst.rate_limiter.used k ≤
      w.rate_limiter.burst := by
  rcases generate_sync_world_cases req d w cfg env with ⟨hno, h⟩ | h | h
  · rw [hks] at hno
    rw [h]
    simp only []
    omega
  · rw [h]
    simp only []
    rw [hks, check_key_count_eq]
    by_cases hlt : getCount w.rate_limiter.used k < w.rate_limiter.burst <;>
      simp [hlt] <;> omega
  · rw [h]
    have h1 := generate_async_count_eq req d
      { w with rate_limiter := (w.rate_limiter.check_key (sync_rate_limit_key req)).snd }
      cfg env
    rw [hka] at h1
    rw [h1]
    simp only [hks, check_key_count_eq, check_key_burst]
    by_cases hlt : getCount w.rate_limiter.used k < w.rate_limiter.burst <;>
      by_cases hlt2 : getCount w.rate_limiter.used k + 1 < w.rate_limiter.burst <;>
      simp [hlt, hlt2] <;> omega

/-- Iterated calls of the sync endpoint with a fixed request, threading
the world. -/
def run_sync_n : Nat → HttpRequest → DocumentRequest → ApiWorld → AppConfig →
    ApiEnv → ApiWorld
  | 0, _, _, w, _, _ => w
  | n + 1, req, d, w, cfg, env =>
    run_sync_n n req d (generate_sync req d w cfg env).snd.fst cfg env

/-- Iterated sync calls keep the clock. -/
theorem run_sync_now (n : Nat) (req : HttpRequest) (d : DocumentRequest)
    (w : ApiWorld) (cfg : AppConfig) (env : ApiEnv) :
    (run_sync_n n req d w cfg env).now = w.now := by
  induction n generalizing w with
  | zero => rfl
  | succ n ih => rw [run_sync_n, ih, generate_sync_now]

/-- Iterated sync calls keep the burst capacity. -/
theorem run_sync_burst (n : Nat) (req : HttpRequest) (d : DocumentRequest)
    (w : ApiWorld) (cfg : AppConfig) (env : ApiEnv) :
    (run_sync_n n req d w cfg env).rate_limiter.burst = w.rate_limiter.burst := by
  induction n generalizing w with
  | zero => rfl
  | succ n ih => rw [run_sync_n, ih, generate_sync_burst]

/-- Iterated sync calls touch no key other than the sync and
async keys. -/
theorem run_sync_count_ne (n : Nat) (req : HttpRequest) (d : DocumentRequest)
    (w : ApiWorld) (cfg : AppConfig) (env : ApiEnv) (k2 : String)
    (hks : k2 ≠ sync_rate_limit_key req) (hka : k2 ≠ async_rate_limit_key req) :
    getCount (run_sync_n n req d w cfg env).rate_limiter.used k2 =
      getCount w.rate_limiter.used k2 := by
  induction n generalizing w with
  | zero => rfl
  | succ n ih => rw [run_sync_n, ih, generate_sync_count_ne _ _ _ _ _ _ hks hka]

/-- When the sync and async keys coincide, n iterated sync calls drive the
count of the key to at least min (start + n) burst while never exceeding
burst. -/
theorem run_sync_count_progress (n : Nat) (req : HttpRequest)
    (d : DocumentRequest) (w : ApiWorld) (cfg : AppConfig) (env : ApiEnv)
    (k : String)
    (hks : sync_rate_limit_key req = k) (hka : async_rate_limit_key req = k)
    (hle : getCount w.rate_limiter.used k ≤ w.rate_limiter.burst) :
    getCount (run_sync_n n req d w cfg env).rate_limiter.used k ≥
      min (getCount w.rate_limiter.used k + n) w.rate_limiter.burst ∧
    getCount (run_sync_n n req d w cfg env).rate_limiter.used k ≤
      w.rate_limiter.burst := by
  induction n generalizing w with
  | zero =>
    constructor
    · simp only [run_sync_n]; omega
    · exact hle
  | succ n ih =>
    rw [run_sync_n]
    have hstep := generate_sync_count_progress req d w cfg env k hks hka hle
    have hb := generate_sync_burst req d w cfg env
    have := ih (generate_sync req d w cfg env).snd.fst (by rw [hb]; exact hstep.2)
    rw [hb] at this
    omega

/-! ## Router claims -/

/-- Metadata with the defaults of DocumentMetadata::default. -/
def metaEx : DocumentMetadata :=
  { tenant_id := 0, user_id := 0, organization_id := none, request_time := 0,
    ttl_seconds := some 86400, tags := none }

/-- An unauthenticated request: no identity headers, no extensions. -/
def reqUnauth : HttpRequest :=
  { x_tenant_id := none, x_user_id := none, user_info := none, auth_info := none }

/-- A request authenticated as tenant 1, user 1 (the validator inserts
both extensions together). -/
def reqAuth11 : HttpRequest :=
  { x_tenant_id := none, x_user_id := none, user_info := some (1, 1),
    auth_info := some (1, 1) }

/-- A request authenticated as tenant 2, user 2. -/
def reqAuth22 : HttpRequest :=
  { x_tenant_id := none, x_user_id := none, user_info := some (2, 2),
    auth_info := some (2, 2) }

/-- A small Invoice request. -/
def dataInvoice : DocumentRequest :=
  { id := "doc-1", template_id := "invoice",
    document_type := DocumentType.Invoice, data := "x",
    priority := Priority.Normal, format := OutputFormat.Pdf,
    callback_url := none, metadata := metaEx }

/-- A high-priority Report request with a small payload. -/
def dataReportHigh : DocumentRequest :=
  { id := "doc-2", template_id := "report",
    document_type := DocumentType.Report, data := "xx",
    priority := Priority.High, format := OutputFormat.Excel,
    callback_url := none, metadata := metaEx }

/-- An Invoice request whose payload is larger than the small ceiling
configured below. -/
def dataBig : DocumentRequest :=
  { id := "doc-3", template_id := "invoice",
    document_type := DocumentType.Invoice, data := "xxxx",
    priority := Priority.Normal, format := OutputFormat.Pdf,
    callback_url := none, metadata := metaEx }

/-- An environment in which the broker acknowledges and renders succeed. -/
def envOkApi : ApiEnv :=
  { kafka_ok := true
    invoice_render := fun _ => Except.ok "https://cdn.example/inv.pdf"
    report_render := fun _ => Except.ok "https://cdn.example/rep.xlsx"
    elapsed_ms := 3 }

/-- A fresh world: empty limiter with the default burst of 20. -/
def worldFresh : ApiWorld :=
  { rate_limiter := { burst := 20, used := [] }, now := 0 }

/-- A world with a single unit of quota available on every key. -/
def worldOneToken : ApiWorld :=
  { rate_limiter := { burst := 1, used := [] }, now := 0 }

/-- A world in which both unauthenticated fallback buckets are already
exhausted. -/
def worldExhausted : ApiWorld :=
  { rate_limiter := { burst := 20, used := [("1:1", 20), ("0:0", 20)] },
    now := 0 }

/-- The default configuration with the synchronous ceiling lowered to two
bytes. -/
def cfgSmallCeiling : AppConfig :=
  { AppConfig.default with max_sync_size_bytes := 2 }

/-- Number of executed SQL writes of status records in a router trace. -/
def db_status_write_count : List ApiEffect → Nat
  | [] => 0
  | ApiEffect.dbStatusWrite _ _ _ :: rest => db_status_write_count rest + 1
  | _ :: rest => db_status_write_count rest

/-- Number of queue publishes in a router trace. -/
def kafka_publish_count : List ApiEffect → Nat
  | [] => 0
  | ApiEffect.kafkaPublish _ _ _ :: rest => kafka_publish_count rest + 1
  | _ :: rest => kafka_publish_count rest

/-- Claim C3 names a bug: the router is supposed to perform exactly one
status-record write per admitted request, but the INSERT inside
save_document_metadata is commented out behind `TODO: Enable when database is
configured`, so an admitted inline request (here answered 200 Completed)
and an admitted async request (here answered 202 Queued) execute zero
status-record writes; the queue-publish half of the claim does hold —
exactly one publish per async admission — and save_document_metadata
itself produces no effect on any input. -/
theorem C3_no_status_write_executed :
    (generate_sync reqUnauth dataInvoice worldFresh AppConfig.default
        envOkApi).fst.status_code = 200 ∧
    db_status_write_count (generate_sync reqUnauth dataInvoice worldFresh
        AppConfig.default envOkApi).snd.snd = 0 ∧
    (generate_async reqUnauth dataReportHigh worldFresh AppConfig.default
        envOkApi).fst.status_code = 202 ∧
    db_status_write_count (generate_async reqUnauth dataReportHigh worldFresh
        AppConfig.default envOkApi).snd.snd = 0 ∧
    kafka_publish_count (generate_async reqUnauth dataReportHigh worldFresh
        AppConfig.default envOkApi).snd.snd = 1 ∧
    save_document_metadata
      { id := "doc-1", status := DocumentStatus.Completed,
        url := some "https://cdn.example/inv.pdf", error := none,
        processing_time_ms := 3, created_at := 0, expires_at := none } 1 1 = [] := by
  refine ⟨?_, ?_, ?_, ?_, ?_, rfl⟩ <;> decide

/-- Modelled from the spec (claim C4 wording): the document types
eligible for inline rendering. -/
def inline_eligible : DocumentType → Bool
  | DocumentType.Invoice => true
  | DocumentType.Report => true
  | _ => false

/-- Modelled from the spec (claim C4 wording): the additional
type-specific inline size ceiling; only Report carries one, exceeded at
payloads of 100000 bytes and beyond. -/
def type_size_ceiling_exceeded : DocumentType → Nat → Bool
  | DocumentType.Report, size => decide (100000 ≤ size)
  | _, _ => false

/-- Claim C4: for every request that passes the quota
check, inline rendering is attempted (observable as a render effect,
which the async path never emits) exactly when the serialized payload
size does not exceed the synchronous ceiling, the document type is
inline-eligible, and the type-specific ceiling is not exceeded;
equivalently, the request routes to the async path exactly when the
claimed disjunction holds. -/
theorem C4_sync_routing (req : HttpRequest) (d : DocumentRequest)
    (w : ApiWorld) (cfg : AppConfig) (env : ApiEnv)
    (hq : getCount w.rate_limiter.used (sync_rate_limit_key req) <
          w.rate_limiter.burst) :
    has_render_effect (generate_sync req d w cfg env).snd.snd =
      (!(decide (d.data.length > cfg.max_sync_size_bytes)
         || !inline_eligible d.document_type
         || type_size_ceiling_exceeded d.document_type d.data.length)) := by
  have hfst : (w.rate_limiter.check_key (sync_rate_limit_key req)).fst = true := by
    rw [check_key_fst]; exact decide_eq_true hq
  rw [generate_sync]
  simp only [sync_rate_limit_key] at hfst ⊢
  rw [hfst]
  simp only [Bool.true_eq_false, if_false]
  by_cases hsz : (set_request_tenant_user d
      ((auth_extract_tenant_user req).getD (1, 1)).fst
      ((auth_extract_tenant_user req).getD (1, 1)).snd).data.length >
      cfg.max_sync_size_bytes
  · have hsz2 : d.data.length > cfg.max_sync_size_bytes := hsz
    simp only [hsz, if_true]
    simp [generate_async_no_render, hsz2]
  · have hsz2 : ¬ d.data.length > cfg.max_sync_size_bytes := hsz
    simp only [hsz, if_false]
    cases hdt : (set_request_tenant_user d
        ((auth_extract_tenant_user req).getD (1, 1)).fst
        ((auth_extract_tenant_user req).getD (1, 1)).snd).document_type with
    | Invoice =>
      have hdt2 : d.document_type = DocumentType.Invoice := hdt
      simp only [hdt, generate_invoice_sync]
      cases hr : env.invoice_render (set_request_tenant_user d
          ((auth_extract_tenant_user req).getD (1, 1)).fst
          ((auth_extract_tenant_user req).getD (1, 1)).snd) with
      | ok u =>
        simp [hr, has_render_effect, save_document_metadata, hdt2,
          inline_eligible, type_size_ceiling_exceeded, hsz2]
      | error e =>
        simp [hr, has_render_effect, hdt2, inline_eligible,
          type_size_ceiling_exceeded, hsz2]
    | Report =>
      have hdt2 : d.document_type = DocumentType.Report := hdt
      by_cases hrs : (set_request_tenant_user d
          ((auth_extract_tenant_user req).getD (1, 1)).fst
          ((auth_extract_tenant_user req).getD (1, 1)).snd).data.length < 100000
      · have hrs2 : d.data.length < 100000 := hrs
        simp only [hdt, hrs, if_true, generate_report_sync]
        cases hr : env.report_render (set_request_tenant_user d
            ((auth_extract_tenant_user req).getD (1, 1)).fst
            ((auth_extract_tenant_user req).getD (1, 1)).snd) with
        | ok u =>
          simp [hr, has_render_effect, save_document_metadata, hdt2,
            inline_eligible, type_size_ceiling_exceeded, hsz2, Nat.not_le.mpr hrs2]
        | error e =>
          simp [hr, has_render_effect, hdt2, inline_eligible,
            type_size_ceiling_exceeded, hsz2, Nat.not_le.mpr hrs2]
      · have hrs2 : ¬ d.data.length < 100000 := hrs
        simp only [hdt, hrs, if_false]
        simp [generate_async_no_render, hdt2, inline_eligible,
          type_size_ceiling_exceeded, Nat.le_of_not_lt hrs2]
    | Certificate =>
      have hdt2 : d.document_type = DocumentType.Certificate := hdt
      simp only [hdt]
      simp [generate_async_no_render, hdt2, inline_eligible,
        type_size_ceiling_exceeded]
    | Statement =>
      have hdt2 : d.document_type = DocumentType.Statement := hdt
      simp only [hdt]
      simp [generate_async_no_render, hdt2, inline_eligible,
        type_size_ceiling_exceeded]
    | Receipt =>
      have hdt2 : d.document_type = DocumentType.Receipt := hdt
      simp only [hdt]
      simp [generate_async_no_render, hdt2, inline_eligible,
        type_size_ceiling_exceeded]
    | Custom name =>
      have hdt2 : d.document_type = DocumentType.Custom name := hdt
      simp only [hdt]
      simp [generate_async_no_render, hdt2, inline_eligible,
        type_size_ceiling_exceeded]

/-- Witness for claim C4 at a concrete admitted request: the quota check
passes and the routing equivalence holds for a small Invoice request. -/
theorem C4_sync_routing_witness :
    getCount worldFresh.rate_limiter.used (sync_rate_limit_key reqAuth11) <
      worldFresh.rate_limiter.burst ∧
    has_render_effect (generate_sync reqAuth11 dataInvoice worldFresh
        AppConfig.default envOkApi).snd.snd =
      (!(decide (dataInvoice.data.length > AppConfig.default.max_sync_size_bytes)
         || !inline_eligible dataInvoice.document_type
         || type_size_ceiling_exceeded dataInvoice.document_type
             dataInvoice.data.length)) :=
  ⟨by decide, C4_sync_routing reqAuth11 dataInvoice worldFresh AppConfig.default
    envOkApi (by decide)⟩

/-- Claim C5 is false on the code: calling the sync endpoint with an
oversized payload re-runs the whole async handler including a second
rate-limit check, so with a single unit of quota remaining the sync
endpoint answers 429 where a direct async call with the same request
answers 202 — the observable results differ. -/
theorem C5_counterexample :
    dataBig.data.length > cfgSmallCeiling.max_sync_size_bytes ∧
    (generate_sync reqAuth11 dataBig worldOneToken cfgSmallCeiling
        envOkApi).fst.status_code = 429 ∧
    (generate_async reqAuth11 dataBig worldOneToken cfgSmallCeiling
        envOkApi).fst.status_code = 202 := by
  refine ⟨?_, ?_, ?_⟩ <;> decide

/-- Claim C5 as amended: for every request whose payload exceeds the sync
ceiling and which passes the own rate-limit check of the sync endpoint, the
sync endpoint behaves exactly as the async endpoint invoked on the world
in which that check has already been charged — so it matches a direct
async call only up to one extra consumed rate-limit unit under the sync
key (and answers 429 instead when that extra charge exhausts the
bucket). -/
theorem C5_amended_double_charge (req : HttpRequest) (d : DocumentRequest)
    (w : ApiWorld) (cfg : AppConfig) (env : ApiEnv)
    (hsz : d.data.length > cfg.max_sync_size_bytes)
    (hq : getCount w.rate_limiter.used (sync_rate_limit_key req) <
          w.rate_limiter.burst) :
    generate_sync req d w cfg env =
      generate_async req d
        { w with rate_limiter :=
            (w.rate_limiter.check_key (sync_rate_limit_key req)).snd }
        cfg env := by
  have hfst : (w.rate_limiter.check_key (sync_rate_limit_key req)).fst = true := by
    rw [check_key_fst]; exact decide_eq_true hq
  rw [generate_sync]
  simp only [sync_rate_limit_key] at hfst ⊢
  rw [hfst]
  simp only [Bool.true_eq_false, if_false, set_request_tenant_user]
  simp only [hsz, if_true]
  exact generate_async_meta req d _ _ _ cfg env

/-- Witness for amended claim C5 at a concrete oversized request with
quota available for both checks. -/
theorem C5_amended_double_charge_witness :
    dataBig.data.length > cfgSmallCeiling.max_sync_size_bytes ∧
    getCount worldFresh.rate_limiter.used (sync_rate_limit_key reqAuth11) <
      worldFresh.rate_limiter.burst ∧
    generate_sync reqAuth11 dataBig worldFresh cfgSmallCeiling envOkApi =
      generate_async reqAuth11 dataBig
        { worldFresh with rate_limiter :=
            (worldFresh.rate_limiter.check_key (sync_rate_limit_key reqAuth11)).snd }
        cfgSmallCeiling envOkApi :=
  ⟨by decide, by decide,
   C5_amended_double_charge reqAuth11 dataBig worldFresh cfgSmallCeiling envOkApi
     (by decide) (by decide)⟩

/-- The estimated completion time carried by a queued acknowledgment. -/
def ack_estimated_seconds (r : HttpResponse) : Option Nat :=
  match r.body with
  | Body.queuedAck _ _ est _ => some est
  | _ => none

/-- Claim C9 is false on the code: a successful async admission of a
high-priority Report answers with the constant estimate 60 (the
`Default estimate` literal in generate_async), not the 120 the
type/priority lookup table estimate_processing_time assigns — that
function has no caller. -/
theorem C9_counterexample :
    ack_estimated_seconds (generate_async reqAuth11 dataReportHigh worldFresh
        AppConfig.default envOkApi).fst = some 60 ∧
    estimate_processing_time dataReportHigh = 120 ∧
    ack_estimated_seconds (generate_async reqAuth11 dataReportHigh worldFresh
        AppConfig.default envOkApi).fst ≠
      some (estimate_processing_time dataReportHigh) := by
  refine ⟨?_, rfl, ?_⟩ <;> decide

/-- Claim C9 as amended: every accepted async acknowledgment carries the
constant estimated completion time 60 seconds, irrespective of document
type and priority; the type/priority lookup table exists in the source
but is never consulted. -/
theorem C9_amended_constant_estimate (req : HttpRequest) (d : DocumentRequest)
    (w : ApiWorld) (cfg : AppConfig) (env : ApiEnv)
    (h : (generate_async req d w cfg env).fst.status_code = 202) :
    ack_estimated_seconds (generate_async req d w cfg env).fst = some 60 := by
  rw [generate_async] at h ⊢
  by_cases hc : (w.rate_limiter.check_key (rate_limit_key_of
      (extract_tenant_user req).fst (extract_tenant_user req).snd)).fst = false
  · rw [if_pos hc] at h
    simp at h
  · rw [if_neg hc] at h ⊢
    by_cases hk : env.kafka_ok
    · simp [hk, ack_estimated_seconds]
    · simp [hk] at h

/-- Witness for amended claim C9 at a concrete accepted admission. -/
theorem C9_amended_constant_estimate_witness :
    (generate_async reqAuth11 dataInvoice worldFresh AppConfig.default
        envOkApi).fst.status_code = 202 ∧
    ack_estimated_seconds (generate_async reqAuth11 dataInvoice worldFresh
        AppConfig.default envOkApi).fst = some 60 :=
  ⟨by decide,
   C9_amended_constant_estimate reqAuth11 dataInvoice worldFresh
     AppConfig.default envOkApi (by decide)⟩

/-- Claim C10: a request carrying no auth extension and no parseable
identity headers falls back to tenant 1, user 1 on the sync endpoint but
tenant 0, user 0 on the async endpoint, so it is charged to bucket "1:1"
via sync and bucket "0:0" via async (each endpoint pools all such
requests into that one bucket): exhausting "1:1" makes the sync endpoint
reject with 429 and no effects, and exhausting "0:0" does the same to the
async endpoint. -/
theorem C10_unauth_fallback_keys (req : HttpRequest) (d : DocumentRequest)
    (w : ApiWorld) (cfg : AppConfig) (env : ApiEnv)
    (hui : req.user_info = none) (hai : req.auth_info = none)
    (hth : Option.bind req.x_tenant_id parse_i64 = none)
    (huh : Option.bind req.x_user_id parse_i64 = none) :
    sync_rate_limit_key req = "1:1" ∧
    async_rate_limit_key req = "0:0" ∧
    (¬ getCount w.rate_limiter.used "1:1" < w.rate_limiter.burst →
      generate_sync req d w cfg env =
        ({ status_code := 429, body := Body.rateLimited "Rate limit exceeded" 60 },
         w, [])) ∧
    (¬ getCount w.rate_limiter.used "0:0" < w.rate_limiter.burst →
      generate_async req d w cfg env =
        ({ status_code := 429, body := Body.rateLimited "Rate limit exceeded" 60 },
         w, [])) := by
  have h1 : sync_rate_limit_key req = "1:1" := by
    simp only [sync_rate_limit_key, auth_extract_tenant_user, hui]
    decide
  have h2 : async_rate_limit_key req = "0:0" := by
    simp only [async_rate_limit_key, extract_tenant_user, hai, hth, huh]
    decide
  refine ⟨h1, h2, ?_, ?_⟩
  · intro hexh
    exact generate_sync_rejected req d w cfg env (h1 ▸ hexh)
  · intro hexh
    exact generate_async_rejected req d w cfg env (h2 ▸ hexh)

/-- Witness for claim C10 at a concrete unauthenticated request against a
world whose fallback buckets are exhausted. -/
theorem C10_unauth_fallback_keys_witness :
    sync_rate_limit_key reqUnauth = "1:1" ∧
    async_rate_limit_key reqUnauth = "0:0" ∧
    generate_sync reqUnauth dataInvoice worldExhausted AppConfig.default envOkApi =
      ({ status_code := 429, body := Body.rateLimited "Rate limit exceeded" 60 },
       worldExhausted, []) ∧
    generate_async reqUnauth dataInvoice worldExhausted AppConfig.default envOkApi =
      ({ status_code := 429, body := Body.rateLimited "Rate limit exceeded" 60 },
       worldExhausted, []) :=
  ⟨(C10_unauth_fallback_keys reqUnauth dataInvoice worldExhausted
      AppConfig.default envOkApi rfl rfl rfl rfl).1,
   (C10_unauth_fallback_keys reqUnauth dataInvoice worldExhausted
      AppConfig.default envOkApi rfl rfl rfl rfl).2.1,
   (C10_unauth_fallback_keys reqUnauth dataInvoice worldExhausted
      AppConfig.default envOkApi rfl rfl rfl rfl).2.2.1 (by decide),
   (C10_unauth_fallback_keys reqUnauth dataInvoice worldExhausted
      AppConfig.default envOkApi rfl rfl rfl rfl).2.2.2 (by decide)⟩

/-- Claim C6: starting from a window in which a tenant:user key has
consumed nothing, burst further sync requests under that key exhaust its
bucket, and the (burst+1)th request is rejected with 429 carrying
retry_after before any other side effect (its effect trace is empty and
the world is unchanged); moreover the outcome — response and effects — of
any request under a different tenant:user key is the same after those
burst+1 requests as it was before them (two-run noninterference across
rate-limiter keys). -/
theorem C6_burst_rejection_and_noninterference (req : HttpRequest)
    (d : DocumentRequest) (w : ApiWorld) (cfg : AppConfig) (env : ApiEnv)
    (t u : Int) (b : Nat)
    (hui : req.user_info = some (t, u)) (hai : req.auth_info = some (t, u))
    (hcount : getCount w.rate_limiter.used (rate_limit_key_of t u) = 0)
    (hburst : w.rate_limiter.burst = b) :
    (generate_sync req d (run_sync_n b req d w cfg env) cfg env =
       ({ status_code := 429, body := Body.rateLimited "Rate limit exceeded" 60 },
        run_sync_n b req d w cfg env, [])) ∧
    (∀ (req2 : HttpRequest) (d2 : DocumentRequest) (t2 u2 : Int),
       req2.user_info = some (t2, u2) → req2.auth_info = some (t2, u2) →
       rate_limit_key_of t2 u2 ≠ rate_limit_key_of t u →
       (generate_sync req2 d2 (run_sync_n (b + 1) req d w cfg env) cfg env).fst =
         (generate_sync req2 d2 w cfg env).fst ∧
       (generate_sync req2 d2 (run_sync_n (b + 1) req d w cfg env) cfg env).snd.snd =
         (generate_sync req2 d2 w cfg env).snd.snd) := by
  have hks : sync_rate_limit_key req = rate_limit_key_of t u := by
    simp [sync_rate_limit_key, auth_extract_tenant_user, hui]
  have hka : async_rate_limit_key req = rate_limit_key_of t u := by
    simp [async_rate_limit_key, extract_tenant_user, hai]
  have hle : getCount w.rate_limiter.used (rate_limit_key_of t u) ≤
      w.rate_limiter.burst := by omega
  have hprog := run_sync_count_progress b req d w cfg env
    (rate_limit_key_of t u) hks hka hle
  have hrb := run_sync_burst b req d w cfg env
  constructor
  · apply generate_sync_rejected
    rw [hks, hrb, hburst]
    rw [hcount, hburst] at hprog
    omega
  · intro req2 d2 t2 u2 h2u h2a hk2
    have hks2 : sync_rate_limit_key req2 = rate_limit_key_of t2 u2 := by
      simp [sync_rate_limit_key, auth_extract_tenant_user, h2u]
    have hka2 : async_rate_limit_key req2 = rate_limit_key_of t2 u2 := by
      simp [async_rate_limit_key, extract_tenant_user, h2a]
    have hcne : ∀ k2, k2 = rate_limit_key_of t2 u2 →
        getCount (run_sync_n (b + 1) req d w cfg env).rate_limiter.used k2 =
          getCount w.rate_limiter.used k2 := by
      intro k2 hk
      apply run_sync_count_ne
      · rw [hk, hks]; exact hk2
      · rw [hk, hka]; exact hk2
    exact generate_sync_congr req2 d2 cfg env
      (run_sync_n (b + 1) req d w cfg env) w
      (run_sync_now (b + 1) req d w cfg env)
      (run_sync_burst (b + 1) req d w cfg env)
      (by rw [hks2]; exact hcne _ rfl)
      (by rw [hka2]; exact hcne _ rfl)

/-- Witness for claim C6 at burst 1: after the bucket of tenant 1, user 1
is exhausted, the next request under that key is rejected with an empty
trace, and a request under tenant 2, user 2 is unaffected. -/
theorem C6_burst_rejection_witness :
    (generate_sync reqAuth11 dataInvoice
       (run_sync_n 1 reqAuth11 dataInvoice worldOneToken AppConfig.default envOkApi)
       AppConfig.default envOkApi =
     ({ status_code := 429, body := Body.rateLimited "Rate limit exceeded" 60 },
      run_sync_n 1 reqAuth11 dataInvoice worldOneToken AppConfig.default envOkApi,
      [])) ∧
    (generate_sync reqAuth22 dataReportHigh
       (run_sync_n 2 reqAuth11 dataInvoice worldOneToken AppConfig.default envOkApi)
       AppConfig.default envOkApi).fst =
      (generate_sync reqAuth22 dataReportHigh worldOneToken AppConfig.default
        envOkApi).fst ∧
    (generate_sync reqAuth22 dataReportHigh
       (run_sync_n 2 reqAuth11 dataInvoice worldOneToken AppConfig.default envOkApi)
       AppConfig.default envOkApi).snd.snd =
      (generate_sync reqAuth22 dataReportHigh worldOneToken AppConfig.default
        envOkApi).snd.snd :=
  ⟨(C6_burst_rejection_and_noninterference reqAuth11 dataInvoice worldOneToken
      AppConfig.default envOkApi 1 1 1 rfl rfl rfl rfl).1,
   ((C6_burst_rejection_and_noninterference reqAuth11 dataInvoice worldOneToken
      AppConfig.default envOkApi 1 1 1 rfl rfl rfl rfl).2 reqAuth22 dataReportHigh
      2 2 rfl rfl (by decide)).1,
   ((C6_burst_rejection_and_noninterference reqAuth11 dataInvoice worldOneToken
      AppConfig.default envOkApi 1 1 1 rfl rfl rfl rfl).2 reqAuth22 dataReportHigh
      2 2 rfl rfl (by decide)).2⟩

end DocGen
